import Mathlib

/-!
# Verification of the wine-concierge service layer

A shallow embedding of the parts of `khushipy/the-conversational-concierge`
that its specification makes claims about: the `SearchResult` dict round-trip
and the `WebSearcher` cache (`src/web_search.py`), the `WeatherService` cache
and summary (`src/weather.py`), the agent routing step (`src/agent.py`), the
HTTP exception handlers (`src/api.py`), and the local app's recommendation
handler (`src/app.py`).

Conventions of the embedding:

* Wall-clock time (`datetime.now()`) is a `Nat` counting seconds; Python's
  `timedelta` comparisons become `Nat` subtraction and `<`.
* A Python `datetime` value is a `Nat`; `isoformat`/`fromisoformat` form a
  bijection between datetimes and their ISO strings, so a serialized
  timestamp is modelled as carrying the `Nat` directly (an ISO string is
  never empty, hence always truthy).
* External I/O (the OpenWeatherMap request, the Google / DuckDuckGo search
  calls, the router LLM call) is parameterised as an oracle argument: an
  `Except`/outcome value standing for what the upstream returned or the
  exception it raised.  Everything downstream of the oracle – cache policy,
  error wrapping, formatting – is translated directly from the source.
* Python dict state (`self.cache`) is an association list consulted with
  `List.lookup`; dict assignment conses a (shadowing) entry at the front.
* Functions that in Python both return a value and mutate `self` return the
  value, the new state, and a `Nat` counting upstream network attempts made
  during the call (0 on a cache hit).
-/

namespace Concierge

/-! ## `src/web_search.py` — `SearchResult` (lines 15–43) -/

/-- `@dataclass SearchResult`: title, url, snippet, source (default `"web"`),
timestamp (default `None`).  A `datetime` is modelled as a `Nat`. -/
structure SearchResult where
  title : String
  url : String
  snippet : String
  source : String := "web"
  timestamp : Option Nat := none
  deriving DecidableEq, Repr

/-- The dictionary shape touched by `to_dict` / `from_dict`.  Only the five
keys the code reads are modelled; an absent key is `none`.  The serialized
timestamp key, when present, holds either an ISO string (carrying its
datetime as a `Nat`, since `isoformat` is injective) or `None`
(`Option Nat` inside the outer presence `Option`). -/
structure SearchResultDict where
  title : Option String
  url : Option String
  snippet : Option String
  source : Option String
  timestamp : Option (Option Nat)
  deriving DecidableEq, Repr

/-- `SearchResult.to_dict` (web_search.py lines 24–32): emits all five keys;
`"timestamp": self.timestamp.isoformat() if self.timestamp else None`
(a `datetime` is always truthy, so the test is `Option.isSome`). -/
def SearchResult.to_dict (r : SearchResult) : SearchResultDict :=
  { title := some r.title
    url := some r.url
    snippet := some r.snippet
    source := some r.source
    timestamp := some (match r.timestamp with
      | some t => some t
      | none => none) }

/-- `SearchResult.from_dict` (web_search.py lines 34–43): `data.get` with the
dataclass defaults, and
`datetime.fromisoformat(data["timestamp"]) if data.get("timestamp") else None`.
`data.get("timestamp")` is truthy exactly when the key is present and holds
an ISO string (ISO strings are nonempty; `None` is falsy). -/
def SearchResult.from_dict (d : SearchResultDict) : SearchResult :=
  { title := d.title.getD ""
    url := d.url.getD ""
    snippet := d.snippet.getD ""
    source := d.source.getD "web"
    timestamp := match d.timestamp with
      | some (some t) => some t
      | some none => none
      | none => none }

/-! ## `src/weather.py` — `WeatherService` -/

/-- The fields extracted from a successful OpenWeatherMap response by
`get_weather` (weather.py lines 69–78), everything except the `timestamp`
the code adds itself.  `wind_speed` is the already-rounded rendering of a
float (`round(..., 1)`). -/
structure WeatherFields where
  location : String
  temperature : Int
  feels_like : Int
  humidity : Int
  wind_speed : String
  description : String
  icon : String
  sunrise : String
  sunset : String
  deriving DecidableEq, Repr

/-- The `weather_info` dict built at weather.py lines 69–80: the response
fields plus `"timestamp": datetime.now()`. -/
structure WeatherInfo extends WeatherFields where
  timestamp : Nat
  deriving DecidableEq, Repr

/-- Oracle for the upstream `requests.get` + response parsing in
`get_weather`: either the parsed fields, a `requests.exceptions.
RequestException` (raised by the call or by `raise_for_status`), or a
`KeyError`/`IndexError` raised while formatting the response. -/
inductive WeatherUpstream where
  | response (fields : WeatherFields)
  | requestException (msg : String)
  | parseFailure (msg : String)
  deriving DecidableEq, Repr

/-- What `get_weather` returns: the `weather_info` dict, or a dict
`{"error": msg}`. -/
inductive WeatherResult where
  | error (msg : String)
  | info (w : WeatherInfo)
  deriving DecidableEq, Repr

/-- One entry of `self.cache`: `{"data": weather_info, "timestamp": now}`
(weather.py lines 82–86). -/
structure WeatherCacheEntry where
  data : WeatherInfo
  timestamp : Nat
  deriving DecidableEq, Repr

/-- The mutable state of a `WeatherService`: the (possibly absent) API key
and the cache dict. -/
structure WeatherService where
  api_key : Option String
  cache : List (String × WeatherCacheEntry)
  deriving DecidableEq, Repr

/-- `self.cache_duration = timedelta(minutes=30)`, in seconds. -/
def WeatherService.cache_duration : Nat := 30 * 60

/-- The cache probe of weather.py lines 47–52: a fresh entry under `key`,
if any (`datetime.now() - cached_data["timestamp"] < self.cache_duration`). -/
def weatherCacheLookup (cache : List (String × WeatherCacheEntry))
    (key : String) (now : Nat) : Option WeatherInfo :=
  match cache.lookup key with
  | some e => if now - e.timestamp < WeatherService.cache_duration then some e.data else none
  | none => none

/-- `WeatherService.get_weather` (weather.py lines 32–95).  Returns the
result, the updated service state, and the number of upstream request
attempts (0 when answered from the cache or refused for a missing key). -/
def WeatherService.get_weather (svc : WeatherService) (location : String)
    (now : Nat) (upstream : WeatherUpstream) :
    WeatherResult × WeatherService × Nat :=
  if svc.api_key.isNone then
    (.error "Weather service is not properly configured. Missing API key.", svc, 0)
  else
    match weatherCacheLookup svc.cache ("weather_" ++ location) now with
    | some data => (.info data, svc, 0)
    | none =>
      match upstream with
      | .response f =>
        (.info ⟨f, now⟩,
         { svc with cache := ("weather_" ++ location, ⟨⟨f, now⟩, now⟩) :: svc.cache },
         1)
      | .requestException m =>
        (.error ("Failed to fetch weather data: " ++ m), svc, 1)
      | .parseFailure _ =>
        (.error "Failed to parse weather data. The API response format may have changed.", svc, 1)

/-- The summary sentence built at weather.py lines 113–119. -/
def summaryBody (w : WeatherInfo) : String :=
  "Current weather in " ++ w.location ++ ": " ++ w.description ++
  " with a temperature of " ++ toString w.temperature ++ "°F " ++
  "(feels like " ++ toString w.feels_like ++ "°F). " ++
  "Humidity is at " ++ toString w.humidity ++ "% and wind speed is " ++
  w.wind_speed ++ " mph. " ++
  "Sunrise was at " ++ w.sunrise ++ " and sunset will be at " ++ w.sunset ++ "."

/-- The wine-advice sentence appended to the summary by the `if`/`elif`/`else`
chain at weather.py lines 122–128, selected by the temperature. -/
def wineAdvice (temp : Int) : String :=
  if temp > 80 then
    " It\x27s quite warm - a chilled white or rosé wine would be refreshing!"
  else if temp < 50 then
    " It\x27s a bit chilly - perfect for a bold red wine to warm you up!"
  else
    " The weather is pleasant - a nice medium-bodied wine would be perfect!"

/-- `WeatherService.get_weather_summary` (weather.py lines 97–134): the
summary sentence with the advice appended (`summary += ...`).  The
`except KeyError` at lines 132–134 cannot fire in the model: a
`WeatherInfo` always has every key the formatting reads. -/
def WeatherService.get_weather_summary (svc : WeatherService) (location : String)
    (now : Nat) (upstream : WeatherUpstream) :
    String × WeatherService × Nat :=
  match svc.get_weather location now upstream with
  | (.error msg, st, calls) =>
      ("I couldn\x27t retrieve the weather information. " ++ msg, st, calls)
  | (.info w, st, calls) =>
      (summaryBody w ++ wineAdvice w.temperature, st, calls)

/-! ## `src/web_search.py` — `WebSearcher` -/

/-- One entry of the search cache (web_search.py lines 94–98):
`{"results": [r.to_dict() for r in results], "timestamp": now}`. -/
structure SearchCacheEntry where
  results : List SearchResultDict
  timestamp : Nat
  deriving DecidableEq, Repr

/-- The mutable state of a `WebSearcher`: the optional API credentials and
the cache dict. -/
structure WebSearcher where
  api_key : Option String
  search_engine_id : Option String
  cache : List (String × SearchCacheEntry)
  deriving DecidableEq, Repr

/-- `self.cache_duration = timedelta(hours=24)`, in seconds. -/
def WebSearcher.cache_duration : Nat := 24 * 60 * 60

/-- The cache probe of web_search.py lines 80–85: a fresh entry under `key`,
if any. -/
def searchCacheLookup (cache : List (String × SearchCacheEntry))
    (key : String) (now : Nat) : Option (List SearchResultDict) :=
  match cache.lookup key with
  | some e => if now - e.timestamp < WebSearcher.cache_duration then some e.results else none
  | none => none

/-- `WebSearcher.search` (web_search.py lines 67–107).  The three oracle
arguments stand for the outcomes of, in order: `_search_with_api`, the
`_search_with_scraping` call on the no-credentials primary path (line 92),
and the `_search_with_scraping` call in the `except` fallback (line 106) —
each either a result list or the exception it raised.  The returned
`Except` is the list the call returns or the exception it re-raises; the
`Nat` counts search-engine requests made (0 on a cache hit). -/
def WebSearcher.search (st : WebSearcher) (query : String) (num_results : Nat)
    (use_api : Bool) (now : Nat)
    (apiOutcome scrape1 scrape2 : Except String (List SearchResult)) :
    Except String (List SearchResult) × WebSearcher × Nat :=
  match searchCacheLookup st.cache ("search_" ++ query ++ "_" ++ toString num_results) now with
  | some rs => (.ok (rs.map SearchResult.from_dict), st, 0)
  | none =>
    match (if use_api && st.api_key.isSome && st.search_engine_id.isSome
           then apiOutcome else scrape1) with
    | .ok results =>
        (.ok results,
         { st with cache :=
            ("search_" ++ query ++ "_" ++ toString num_results,
             ⟨results.map SearchResult.to_dict, now⟩) :: st.cache },
         1)
    | .error e =>
        if use_api then (scrape2, st, 2) else (.error e, st, 1)

/-! ## `src/agent.py` — `WineConciergeAgent` routing -/

/-- `ToolType` (agent.py lines 35–39). -/
inductive ToolType where
  | document_retrieval
  | web_search
  | weather
  | respond
  deriving DecidableEq, Repr

/-- `ToolSelection` (agent.py lines 42–45): the tool to use and its input. -/
structure ToolSelection where
  tool : ToolType
  tool_input : String
  deriving DecidableEq, Repr

/-- A conversation message (`HumanMessage`/`AIMessage`/`SystemMessage`):
the routing step only reads `.content`. -/
structure Message where
  role : String
  content : String
  deriving DecidableEq, Repr

/-- agent.py line 107:
`state["messages"][-1].content if state["messages"] else ""` — the latest
message's content, or the empty string for an empty conversation. -/
def latestUserMessage (messages : List Message) : String :=
  match messages.getLast? with
  | some m => m.content
  | none => ""

/-- The router chain `prompt | self.llm | JsonOutputParser(...)` of agent.py
line 141, in two oracle stages: the LLM call on the user input (producing
raw model output or raising), then the JSON parse of that output into a
`ToolSelection` (or raising). -/
def chainInvoke (llm : String → Except String String)
    (parse : String → Except String ToolSelection) (input : String) :
    Except String ToolSelection :=
  match llm input with
  | .error e => .error e
  | .ok raw => parse raw

/-- `WineConciergeAgent._route` (agent.py lines 104–151): invoke the chain on
the latest user message; on any exception fall back to
`ToolSelection(tool=ToolType.RESPOND, tool_input="")` (lines 148–151). -/
def route (messages : List Message) (llm : String → Except String String)
    (parse : String → Except String ToolSelection) : ToolSelection :=
  match chainInvoke llm parse (latestUserMessage messages) with
  | .ok tool_selection => tool_selection
  | .error _ => ⟨ToolType.respond, ""⟩

/-! ## `src/api.py` — exception handlers (lines 166–179) -/

/-- An exception reaching FastAPI's error translation: either a declared
`HTTPException` (status and detail), or anything else (its class name and
message). -/
inductive AppException where
  | httpException (status : Nat) (detail : String)
  | unhandled (excName : String) (msg : String)
  deriving DecidableEq, Repr

/-- The JSON error response each handler builds. -/
structure ErrorResponse where
  status_code : Nat
  detail : String
  deriving DecidableEq, Repr

/-- `http_exception_handler` (api.py lines 166–171): the declared status and
detail pass through verbatim. -/
def http_exception_handler (status : Nat) (detail : String) : ErrorResponse :=
  ⟨status, detail⟩

/-- `global_exception_handler` (api.py lines 173–179): a fixed generic 500,
independent of the exception. -/
def global_exception_handler (_excName _msg : String) : ErrorResponse :=
  ⟨500, "An unexpected error occurred"⟩

/-- FastAPI dispatch over the two registered handlers: an `HTTPException`
goes to `http_exception_handler`, any other exception escaping a route
goes to `global_exception_handler`. -/
def handleException (exc : AppException) : ErrorResponse :=
  match exc with
  | .httpException status detail => http_exception_handler status detail
  | .unhandled excName msg => global_exception_handler excName msg

/-! ## `src/app.py` — the local/offline variant's `recommend_wine` -/

/-- One result dict from `search_client.text(...)` (duckduckgo_search). -/
structure DDGResult where
  title : String
  href : String
  body : String
  deriving DecidableEq, Repr

/-- One entry of `formatted_results` (app.py lines 116–119). -/
structure FormattedSource where
  title : String
  url : String
  snippet : String
  deriving DecidableEq, Repr

/-- What the handler produces: the `except` branch's
`HTTPException(status_code=500, detail=str(e))`, or a success payload. -/
inductive RecommendResponse where
  | httpError (status : Nat) (detail : String)
  | success (recommendation : String) (sources : List FormattedSource)
  deriving DecidableEq, Repr

/-- `str(e)` for the `NameError` raised by evaluating the undefined variable
`search_context` in the prompt f-string (app.py line 127). -/
def nameErrorMessage : String := "name \x27search_context\x27 is not defined"

/-- `recommend_wine` (app.py lines 105–153).  The oracle argument is the
outcome of the `search_client.text` call.  The prompt at lines 122–137 is an
f-string, evaluated immediately: `{search_context}` is looked up as a
variable at that point, and no such variable is ever defined (the trailing
`.format(search_context=...)` would only run after the f-string evaluates),
so a `NameError` is raised there, caught by `except Exception`, and
re-raised as an HTTP 500; `llm.generate` (line 140) is never reached.  The
`Bool` records whether `llm.generate` was called. -/
def recommend_wine (searchOutcome : Except String (List DDGResult)) :
    RecommendResponse × Bool :=
  match searchOutcome with
  | .error e => (.httpError 500 e, false)
  | .ok search_results =>
    let _formatted_results := search_results.map
      (fun r => FormattedSource.mk r.title r.href (r.body.take 200 ++ "..."))
    (.httpError 500 nameErrorMessage, false)

/-! ## Concrete example values (used by the witness theorems) -/

/-- A concrete parsed upstream response. -/
def exampleFields : WeatherFields :=
  ⟨"Napa, US", 75, 74, 40, "5.0", "Clear sky", "01d", "06:30", "18:30"⟩

/-- `exampleFields` with the temperature overridden. -/
def exampleFieldsAt (t : Int) : WeatherFields :=
  { exampleFields with temperature := t }

/-- A weather service holding an API key and an empty cache. -/
def exampleWeatherService : WeatherService := ⟨some "k", []⟩

end Concierge

/-! ## Helper lemmas -/

namespace Concierge

/-- Round-trip: serialising a `SearchResult` and parsing it back is the
identity, for every field combination including `timestamp = None`. -/
theorem SearchResult.from_dict_to_dict (r : SearchResult) :
    SearchResult.from_dict r.to_dict = r := by
  cases r with
  | mk title url snippet source timestamp =>
    cases timestamp <;> rfl

/-- Anatomy of a first `get_weather` call that went upstream successfully
(third component 1, `info` result): the key was present, the cache missed,
the upstream answered, and the new state has the fetched entry in front. -/
theorem get_weather_fetch_inv (svc : WeatherService) (location : String)
    (now : Nat) (up : WeatherUpstream) (w : WeatherInfo) (svc' : WeatherService)
    (h : svc.get_weather location now up = (.info w, svc', 1)) :
    svc.api_key.isNone = false ∧
    w.timestamp = now ∧
    svc' = { svc with cache := ("weather_" ++ location, ⟨w, now⟩) :: svc.cache } := by
  unfold WeatherService.get_weather at h
  split at h
  · simp at h
  · rename_i hk
    split at h
    · simp at h
    · cases up with
      | response f =>
          simp only [Prod.mk.injEq, WeatherResult.info.injEq] at h
          obtain ⟨hw, hsvc, -⟩ := h
          subst hw
          exact ⟨Bool.eq_false_iff.mpr hk, rfl, hsvc.symm⟩
      | requestException m => simp at h
      | parseFailure m => simp at h

/-- Serialising a whole result list into the cache and parsing it back is the
identity (pointwise `SearchResult.from_dict_to_dict`). -/
theorem map_from_dict_to_dict (l : List SearchResult) :
    (l.map SearchResult.to_dict).map SearchResult.from_dict = l := by
  rw [List.map_map]
  have h : (SearchResult.from_dict ∘ SearchResult.to_dict) = id := by
    funext r
    exact SearchResult.from_dict_to_dict r
  rw [h, List.map_id]

/-- Anatomy of a `search` call that went to the search engine once and
returned results (third component 1, `ok` result): the cache missed, the
primary strategy succeeded, and the new state has the serialized results
cached in front. -/
theorem search_primary_inv (st : WebSearcher) (query : String) (num_results : Nat)
    (use_api : Bool) (now : Nat) (a s1 s2 : Except String (List SearchResult))
    (rs : List SearchResult) (st' : WebSearcher)
    (h : st.search query num_results use_api now a s1 s2 = (.ok rs, st', 1)) :
    searchCacheLookup st.cache ("search_" ++ query ++ "_" ++ toString num_results) now = none ∧
    st' = { st with cache :=
      ("search_" ++ query ++ "_" ++ toString num_results,
       ⟨rs.map SearchResult.to_dict, now⟩) :: st.cache } := by
  unfold WebSearcher.search at h
  split at h
  · simp at h
  · rename_i hmiss
    split at h
    · rename_i results hprim
      simp only [Prod.mk.injEq, Except.ok.injEq] at h
      obtain ⟨hrs, hst, -⟩ := h
      subst hrs
      exact ⟨hmiss, hst.symm⟩
    · split at h
      · simp at h
      · simp at h

/-- Anatomy of a `search` call that fell back to scraping and returned
results (third component 2): the cache missed, the primary strategy raised,
`use_api` was set, and the state is unchanged. -/
theorem search_fallback_inv (st : WebSearcher) (query : String) (num_results : Nat)
    (use_api : Bool) (now : Nat) (a s1 s2 : Except String (List SearchResult))
    (out : Except String (List SearchResult)) (st' : WebSearcher)
    (h : st.search query num_results use_api now a s1 s2 = (out, st', 2)) :
    searchCacheLookup st.cache ("search_" ++ query ++ "_" ++ toString num_results) now = none ∧
    use_api = true ∧ out = s2 ∧ st' = st := by
  unfold WebSearcher.search at h
  split at h
  · simp at h
  · rename_i hmiss
    split at h
    · simp at h
    · split at h
      · rename_i huse
        simp only [Prod.mk.injEq] at h
        exact ⟨hmiss, huse, h.1.symm, h.2.1.symm⟩
      · simp at h

end Concierge

/-! ## Claim theorems -/

namespace Concierge

/-- C5: For every `SearchResult` value, including one whose timestamp field is
`None`, `SearchResult.from_dict(result.to_dict())` equals `result`
(round-trip equality over all five fields). -/
theorem c5_searchresult_roundtrip (r : SearchResult) :
    SearchResult.from_dict r.to_dict = r ∧
      (SearchResult.from_dict r.to_dict).title = r.title ∧
      (SearchResult.from_dict r.to_dict).url = r.url ∧
      (SearchResult.from_dict r.to_dict).snippet = r.snippet ∧
      (SearchResult.from_dict r.to_dict).source = r.source ∧
      (SearchResult.from_dict r.to_dict).timestamp = r.timestamp := by
  have h := SearchResult.from_dict_to_dict r
  exact ⟨h, by rw [h], by rw [h], by rw [h], by rw [h], by rw [h]⟩

/-- C3: after a first call that successfully fetched and cached a payload for
`location` at time `now₁`, a second call strictly within the 30-minute window
returns the identical cached payload with no upstream request and leaves the
state unchanged; a call at or after the 30-minute mark goes upstream again. -/
theorem c3_weather_cache_window (svc : WeatherService) (location : String)
    (now₁ : Nat) (up₁ : WeatherUpstream) (w : WeatherInfo) (svc₁ : WeatherService)
    (hfirst : svc.get_weather location now₁ up₁ = (.info w, svc₁, 1)) :
    ∀ (now₂ : Nat) (up₂ : WeatherUpstream),
      (now₂ - now₁ < 30 * 60 →
        svc₁.get_weather location now₂ up₂ = (.info w, svc₁, 0)) ∧
      (30 * 60 ≤ now₂ - now₁ →
        (svc₁.get_weather location now₂ up₂).2.2 = 1) := by
  obtain ⟨hk, -, hsvc₁⟩ := get_weather_fetch_inv svc location now₁ up₁ w svc₁ hfirst
  intro now₂ up₂
  have hk₁ : svc₁.api_key.isNone = false := by rw [hsvc₁]; exact hk
  have hfresh : weatherCacheLookup svc₁.cache ("weather_" ++ location) now₂
      = if now₂ - now₁ < WeatherService.cache_duration then some w else none := by
    rw [hsvc₁]
    unfold weatherCacheLookup
    simp [List.lookup]
  constructor
  · intro hlt
    unfold WeatherService.get_weather
    rw [if_neg (by simp [hk₁]), hfresh,
      if_pos (show now₂ - now₁ < WeatherService.cache_duration from hlt)]
  · intro hge
    unfold WeatherService.get_weather
    rw [if_neg (by simp [hk₁]), hfresh,
      if_neg (show ¬now₂ - now₁ < WeatherService.cache_duration from by
        unfold WeatherService.cache_duration; omega)]
    cases up₂ <;> rfl

/-- C3 witness: fetch at `t = 0`, hit at `t = 600` (10 minutes, same payload,
no request), miss at `t = 1800` (30 minutes elapsed, a new upstream attempt). -/
theorem c3_weather_cache_window_witness :
    (WeatherService.get_weather
        ⟨some "k", [("weather_Napa,CA,US", ⟨⟨exampleFields, 0⟩, 0⟩)]⟩
        "Napa,CA,US" 600 (.requestException "down")
      = (.info ⟨exampleFields, 0⟩,
         ⟨some "k", [("weather_Napa,CA,US", ⟨⟨exampleFields, 0⟩, 0⟩)]⟩, 0)) ∧
    ((WeatherService.get_weather
        ⟨some "k", [("weather_Napa,CA,US", ⟨⟨exampleFields, 0⟩, 0⟩)]⟩
        "Napa,CA,US" 1800 (.requestException "down")).2.2 = 1) := by
  have h := c3_weather_cache_window exampleWeatherService "Napa,CA,US" 0
    (.response exampleFields) ⟨exampleFields, 0⟩
    ⟨some "k", [("weather_Napa,CA,US", ⟨⟨exampleFields, 0⟩, 0⟩)]⟩ rfl
  exact ⟨(h 600 (.requestException "down")).1 (by decide),
         (h 1800 (.requestException "down")).2 (by decide)⟩

/-- C9: `get_weather` mutates the cache only on success — whenever it returns
an error payload (missing API key, upstream request failure, or
response-parsing failure), the service state is left unchanged. -/
theorem c9_weather_error_leaves_cache (svc : WeatherService) (location : String)
    (now : Nat) (up : WeatherUpstream) (msg : String) (st : WeatherService)
    (calls : Nat)
    (h : svc.get_weather location now up = (.error msg, st, calls)) :
    st = svc := by
  unfold WeatherService.get_weather at h
  split at h
  · simp only [Prod.mk.injEq] at h
    exact h.2.1.symm
  · split at h
    · simp at h
    · cases up with
      | response f => simp at h
      | requestException m =>
          simp only [Prod.mk.injEq] at h
          exact h.2.1.symm
      | parseFailure m =>
          simp only [Prod.mk.injEq] at h
          exact h.2.1.symm

/-- C9 witness: a missing API key returns the configuration error and leaves
the (empty-cache) service state exactly as it was. -/
theorem c9_weather_error_leaves_cache_witness :
    (WeatherService.get_weather ⟨none, []⟩ "Napa,CA,US" 0
        (.response exampleFields)
      = (.error "Weather service is not properly configured. Missing API key.",
         ⟨none, []⟩, 0)) ∧
    ((⟨none, []⟩ : WeatherService) = ⟨none, []⟩) := by
  exact ⟨rfl, c9_weather_error_leaves_cache ⟨none, []⟩ "Napa,CA,US" 0
    (.response exampleFields)
    "Weather service is not properly configured. Missing API key."
    ⟨none, []⟩ 0 rfl⟩

/-- C6: every successful weather lookup yields a summary that ends with the
wine advice, and the advice is determined solely by the temperature band:
`> 80 °F` the chilled white/rosé line, `< 50 °F` the bold red line,
otherwise the medium-bodied line. -/
theorem c6_summary_temperature_bands (svc : WeatherService) (location : String)
    (now : Nat) (up : WeatherUpstream) (w : WeatherInfo)
    (h : (svc.get_weather location now up).1 = .info w) :
    (∃ p, (svc.get_weather_summary location now up).1 = p ++ wineAdvice w.temperature) ∧
    (w.temperature > 80 → wineAdvice w.temperature
      = " It\x27s quite warm - a chilled white or rosé wine would be refreshing!") ∧
    (w.temperature < 50 → wineAdvice w.temperature
      = " It\x27s a bit chilly - perfect for a bold red wine to warm you up!") ∧
    (w.temperature ≤ 80 → 50 ≤ w.temperature → wineAdvice w.temperature
      = " The weather is pleasant - a nice medium-bodied wine would be perfect!") := by
  refine ⟨?_, ?_, ?_, ?_⟩
  · rcases hgw : svc.get_weather location now up with ⟨res, st, calls⟩
    rw [hgw] at h
    cases res with
    | error m => simp at h
    | info w' =>
      have hw : w' = w := by simpa using h
      subst hw
      refine ⟨summaryBody w', ?_⟩
      unfold WeatherService.get_weather_summary
      rw [hgw]
  · intro ht
    unfold wineAdvice
    rw [if_pos ht]
  · intro ht
    unfold wineAdvice
    rw [if_neg (by omega), if_pos ht]
  · intro ht₁ ht₂
    unfold wineAdvice
    rw [if_neg (by omega), if_neg (by omega)]

/-- C6 witness: at 85 °F the summary ends with the chilled white/rosé line. -/
theorem c6_summary_temperature_bands_witness :
    (∃ p, (WeatherService.get_weather_summary exampleWeatherService "Napa,CA,US" 0
        (.response (exampleFieldsAt 85))).1
      = p ++ wineAdvice (85 : Int)) ∧
    ((85 : Int) > 80) ∧
    (wineAdvice (85 : Int)
      = " It\x27s quite warm - a chilled white or rosé wine would be refreshing!") := by
  have h := c6_summary_temperature_bands exampleWeatherService "Napa,CA,US" 0
    (.response (exampleFieldsAt 85)) ⟨exampleFieldsAt 85, 0⟩ rfl
  exact ⟨h.1, by decide, h.2.1 (by decide)⟩

/-- C4: after a first call that fetched results for `(query, num_results)`
through its primary strategy and cached them at time `now₁`, a second call
strictly within the 24-hour window returns an equal result list straight
from the cache (no search-engine request, state unchanged); a call at or
after the 24-hour mark makes at least one fresh search-engine request. -/
theorem c4_search_cache_window (st : WebSearcher) (query : String)
    (num_results : Nat) (use_api : Bool) (now₁ : Nat)
    (a s1 s2 : Except String (List SearchResult))
    (rs : List SearchResult) (st₁ : WebSearcher)
    (hfirst : st.search query num_results use_api now₁ a s1 s2 = (.ok rs, st₁, 1)) :
    ∀ (now₂ : Nat) (use_api' : Bool) (a' s1' s2' : Except String (List SearchResult)),
      (now₂ - now₁ < 24 * 60 * 60 →
        st₁.search query num_results use_api' now₂ a' s1' s2' = (.ok rs, st₁, 0)) ∧
      (24 * 60 * 60 ≤ now₂ - now₁ →
        1 ≤ (st₁.search query num_results use_api' now₂ a' s1' s2').2.2) := by
  obtain ⟨-, hst₁⟩ := search_primary_inv st query num_results use_api now₁ a s1 s2 rs st₁ hfirst
  intro now₂ use_api' a' s1' s2'
  have hfresh : searchCacheLookup st₁.cache
      ("search_" ++ query ++ "_" ++ toString num_results) now₂
      = if now₂ - now₁ < WebSearcher.cache_duration
        then some (rs.map SearchResult.to_dict) else none := by
    rw [hst₁]
    unfold searchCacheLookup
    simp [List.lookup]
  constructor
  · intro hlt
    unfold WebSearcher.search
    rw [hfresh, if_pos (show now₂ - now₁ < WebSearcher.cache_duration from hlt)]
    have hcomp : SearchResult.from_dict ∘ SearchResult.to_dict = id :=
      funext SearchResult.from_dict_to_dict
    simp [hcomp]
  · intro hge
    unfold WebSearcher.search
    rw [hfresh, if_neg (show ¬now₂ - now₁ < WebSearcher.cache_duration from by
      unfold WebSearcher.cache_duration; omega)]
    rcases hprim : (if use_api' && st₁.api_key.isSome && st₁.search_engine_id.isSome
        then a' else s1') with e | results
    · cases use_api' <;> simp
    · simp

/-- C4 witness: fetch at `t = 0` through the API path, cache hit at
`t = 3600` (equal results, no request), fresh request at `t = 86400`. -/
theorem c4_search_cache_window_witness :
    (WebSearcher.search
        ⟨some "k", some "cx",
         [("search_best wine_3",
           ⟨[SearchResult.to_dict ⟨"t", "u", "s", "google", some 0⟩], 0⟩)]⟩
        "best wine" 3 true 3600 (.error "down") (.error "down") (.error "down")
      = (.ok [⟨"t", "u", "s", "google", some 0⟩],
         ⟨some "k", some "cx",
          [("search_best wine_3",
            ⟨[SearchResult.to_dict ⟨"t", "u", "s", "google", some 0⟩], 0⟩)]⟩, 0)) ∧
    (1 ≤ (WebSearcher.search
        ⟨some "k", some "cx",
         [("search_best wine_3",
           ⟨[SearchResult.to_dict ⟨"t", "u", "s", "google", some 0⟩], 0⟩)]⟩
        "best wine" 3 true 86400 (.error "down") (.error "down") (.error "down")).2.2) := by
  have h := c4_search_cache_window ⟨some "k", some "cx", []⟩ "best wine" 3 true 0
    (.ok [⟨"t", "u", "s", "google", some 0⟩]) (.error "x") (.error "x")
    [⟨"t", "u", "s", "google", some 0⟩]
    ⟨some "k", some "cx",
     [("search_best wine_3",
       ⟨[SearchResult.to_dict ⟨"t", "u", "s", "google", some 0⟩], 0⟩)]⟩ rfl
  exact ⟨(h 3600 true (.error "down") (.error "down") (.error "down")).1 (by decide),
         (h 86400 true (.error "down") (.error "down") (.error "down")).2 (by decide)⟩

/-- C10: when `search` falls back to scraping after an exception in its
primary path and the fallback succeeds, the results are returned with the
cache left untouched, so an immediately repeated call with the same
`(query, num_results)` makes at least one new search-engine request instead
of hitting the cache. -/
theorem c10_fallback_results_not_cached (st : WebSearcher) (query : String)
    (num_results : Nat) (now : Nat)
    (a s1 s2 : Except String (List SearchResult))
    (rs : List SearchResult) (st₁ : WebSearcher)
    (hfirst : st.search query num_results true now a s1 s2 = (.ok rs, st₁, 2)) :
    s2 = .ok rs ∧ st₁ = st ∧
    ∀ (use_api' : Bool) (a' s1' s2' : Except String (List SearchResult)),
      1 ≤ (st.search query num_results use_api' now a' s1' s2').2.2 := by
  obtain ⟨hmiss, -, hout, hst⟩ :=
    search_fallback_inv st query num_results true now a s1 s2 (.ok rs) st₁ hfirst
  refine ⟨hout.symm, hst, ?_⟩
  intro use_api' a' s1' s2'
  unfold WebSearcher.search
  rw [hmiss]
  rcases hprim : (if use_api' && st.api_key.isSome && st.search_engine_id.isSome
      then a' else s1') with e | results
  · cases use_api' <;> simp
  · simp

/-- C10 witness: the API path raises, the scraping fallback answers; the
state is unchanged and an immediate repeat makes a request. -/
theorem c10_fallback_results_not_cached_witness :
    ((.ok [⟨"t", "u", "s", "duckduckgo", some 0⟩]
        : Except String (List SearchResult))
      = .ok [⟨"t", "u", "s", "duckduckgo", some 0⟩]) ∧
    ((⟨some "k", some "cx", []⟩ : WebSearcher) = ⟨some "k", some "cx", []⟩) ∧
    (1 ≤ (WebSearcher.search ⟨some "k", some "cx", []⟩ "best wine" 3 true 0
        (.error "down") (.error "down") (.error "down")).2.2) := by
  have h := c10_fallback_results_not_cached ⟨some "k", some "cx", []⟩ "best wine" 3 0
    (.error "api down") (.error "x") (.ok [⟨"t", "u", "s", "duckduckgo", some 0⟩])
    [⟨"t", "u", "s", "duckduckgo", some 0⟩] ⟨some "k", some "cx", []⟩ rfl
  exact ⟨h.1, h.2.1, h.2.2 true (.error "down") (.error "down") (.error "down")⟩

/-- C2: if the router's LLM call fails, or the LLM call returns raw output
whose JSON parsing fails, the routing step returns
`{tool: respond, tool_input: ""}` (and, being a total function, raises
nothing). -/
theorem c2_route_fallback (messages : List Message)
    (llm : String → Except String String)
    (parse : String → Except String ToolSelection)
    (h : (∃ e, llm (latestUserMessage messages) = .error e) ∨
         (∃ raw e, llm (latestUserMessage messages) = .ok raw ∧
            parse raw = .error e)) :
    route messages llm parse = ⟨ToolType.respond, ""⟩ := by
  rcases h with ⟨e, he⟩ | ⟨raw, e, hraw, hparse⟩
  · unfold route chainInvoke
    rw [he]
  · unfold route chainInvoke
    rw [hraw]
    simp [hparse]

/-- C2 witness: a routing step whose LLM call raises falls back to the
`respond` tool with empty input. -/
theorem c2_route_fallback_witness :
    ((∃ e, (fun _ : String => (.error "timeout" : Except String String))
        (latestUserMessage [⟨"user", "hi"⟩]) = .error e) ∨
     (∃ raw e, (fun _ : String => (.error "timeout" : Except String String))
        (latestUserMessage [⟨"user", "hi"⟩]) = .ok raw ∧
        (fun _ : String => (.error "bad json" : Except String ToolSelection)) raw
          = .error e)) ∧
    route [⟨"user", "hi"⟩] (fun _ => .error "timeout") (fun _ => .error "bad json")
      = ⟨ToolType.respond, ""⟩ := by
  refine ⟨Or.inl ⟨"timeout", rfl⟩, ?_⟩
  exact c2_route_fallback [⟨"user", "hi"⟩] (fun _ => .error "timeout")
    (fun _ => .error "bad json") (Or.inl ⟨"timeout", rfl⟩)

/-- C7: with an empty message list the routing step does not index out of
bounds — the latest-message lookup yields the empty string, and routing
proceeds as on input `""`. -/
theorem c7_route_empty_messages :
    latestUserMessage [] = "" ∧
    ∀ (llm : String → Except String String)
      (parse : String → Except String ToolSelection),
      route [] llm parse =
        (match chainInvoke llm parse "" with
         | .ok tool_selection => tool_selection
         | .error _ => ⟨ToolType.respond, ""⟩) :=
  ⟨rfl, fun _ _ => rfl⟩

/-- C1: an exception escaping a route that is not a declared `HTTPException`
is translated to status 500 with the fixed generic body, independent of the
exception's class and message. -/
theorem c1_unhandled_exception_generic_500 (excName msg : String) :
    handleException (.unhandled excName msg)
      = ⟨500, "An unexpected error occurred"⟩ ∧
    ∀ excName₂ msg₂ : String,
      handleException (.unhandled excName msg)
        = handleException (.unhandled excName₂ msg₂) :=
  ⟨rfl, fun _ _ => rfl⟩

/-- C8: in the local/offline app variant, every invocation of the
`/api/recommend` handler that reaches the prompt construction raises the
`search_context` NameError before the generation call, and every invocation
whatsoever ends in the error branch with an HTTP 500 and without calling
`llm.generate`. -/
theorem c8_recommend_name_error :
    (∀ search_results : List DDGResult,
      recommend_wine (.ok search_results)
        = (.httpError 500 nameErrorMessage, false)) ∧
    (∀ outcome : Except String (List DDGResult),
      (recommend_wine outcome).2 = false ∧
      ∃ d, (recommend_wine outcome).1 = .httpError 500 d) := by
  refine ⟨fun _ => rfl, fun outcome => ?_⟩
  cases outcome with
  | error e => exact ⟨rfl, e, rfl⟩
  | ok search_results => exact ⟨rfl, nameErrorMessage, rfl⟩

end Concierge
